import Mathlib

/-!
Verification development for the DeepSeek OCR web server (src/server.py).

The Python source is shallowly embedded below.  Conventions:

* Python strings are Lean strings; the Python string methods used by the
  server (lower, startswith, strip) are modelled as functions on the
  underlying character list, matching Python's code-point semantics.
* SQLite tables are Lean lists of rows, in insertion order.  Timestamps
  are assigned in nondecreasing insertion order by SQLite's
  CURRENT_TIMESTAMP, so "ORDER BY timestamp ASC" is modelled as the
  insertion order of the list, and "ORDER BY timestamp DESC" as its
  reverse.  AUTOINCREMENT ids are modelled as (length of table) + 1.
* Python floats holding money (REAL columns, MODEL_COSTS) are modelled
  as rationals; both sides of every cost equation compute the same
  expression, so the claims proved about them do not depend on rounding.
* The external process call (subprocess.run of ollama) is an opaque
  input to each handler: an EngineResult value says how that single
  invocation turned out.  The state records every attempted invocation
  in engine_calls so that "the engine is not invoked" is expressible.
* The filesystem of the uploads folder is an association list from path
  to contents; file.save overwrites whatever was stored at that path.
-/

/-- Model of Python str.lower, mapping each character to lower case. -/
def pyLower (s : String) : String := ⟨s.data.map Char.toLower⟩

/-- Model of Python s.startswith(pre): pre is an initial segment of s. -/
def pyStartswith (s pre : String) : Bool := pre.data.isPrefixOf s.data

/-- Model of Python str.strip(): remove leading and trailing whitespace. -/
def pyStrip (s : String) : String :=
  ⟨List.reverse (List.dropWhile Char.isWhitespace
      (List.reverse (List.dropWhile Char.isWhitespace s.data)))⟩

/-- Embedding of estimate_tokens (server.py line 87): len(text) / 4, floor division. -/
def estimate_tokens (text : String) : Nat := text.length / 4

/-- Price-table entry: cost per 1K tokens for input and output. -/
structure ModelCost where
  input : ℚ
  output : ℚ
deriving DecidableEq

/-- Price entry of the deepseek-ocr model, also the fallback entry. -/
def deepseekCost : ModelCost := ⟨0.0001, 0.0001⟩

/-- Embedding of the MODEL_COSTS dictionary (server.py line 28). -/
def MODEL_COSTS (model : String) : Option ModelCost :=
  if model = "deepseek-ocr" then some deepseekCost
  else if model = "llava" then some ⟨0.0001, 0.0001⟩
  else if model = "moondream" then some ⟨0.00005, 0.00005⟩
  else none

/-- Embedding of calculate_cost (server.py line 91): looks up the model in
MODEL_COSTS falling back to the deepseek-ocr entry, then charges each token
count at the per-1K price (Python true division, exact on rationals). -/
def calculate_cost (input_tokens output_tokens : Nat) (model : String) : ℚ :=
  let costs := (MODEL_COSTS model).getD deepseekCost
  (input_tokens : ℚ) / 1000 * costs.input + (output_tokens : ℚ) / 1000 * costs.output

/-- Value of the UPLOAD_FOLDER configuration (server.py line 20). -/
def UPLOAD_FOLDER : String := "uploads"

/-- Path UPLOAD_FOLDER / filename used for saving and for prompts. -/
def makeFilepath (filename : String) : String := UPLOAD_FOLDER ++ "/" ++ filename

/-- Embedding of the reference generation of upload_file (server.py line 741):
the stored name is the second-resolution timestamp string
(datetime.now().strftime of %Y%m%d_%H%M%S), an underscore, and the
client-supplied original filename. -/
def makeFilename (timestamp original : String) : String :=
  timestamp ++ "_" ++ original

/-- Embedding of the prompt construction of upload_file (server.py lines
746-753): the image path, a newline, and the intent; the grounding marker
is prepended to the intent unless the intent already starts with it or the
intent starts, case-insensitively, with "describe this image". -/
def buildUploadPrompt (filepath intent : String) : String :=
  if pyStartswith (pyLower intent) "describe this image" then
    filepath ++ "\n" ++ intent
  else if ¬ pyStartswith intent "<|grounding|>" then
    filepath ++ "\n" ++ "<|grounding|>" ++ intent
  else
    filepath ++ "\n" ++ intent

/-- Row of the interactions table (server.py line 54), timestamp omitted:
rows are kept in insertion order, which is the timestamp order. -/
structure Interaction where
  id : Nat
  filename : String
  intent : String
  output : String
  model : String
  input_tokens : Nat
  output_tokens : Nat
  estimated_cost : ℚ
deriving DecidableEq

/-- Row of the chat_messages table (server.py line 69), timestamp omitted
for the same reason. -/
structure ChatMessage where
  id : Nat
  interaction_id : Nat
  role : String
  content : String
  tokens : Nat
  cost : ℚ
deriving DecidableEq

/-- Whole observable server state: the two SQLite tables, the uploads
folder (path to contents, a later save overwrites an equal path), and the
log of attempted engine invocations as (model, prompt) pairs. -/
structure ServerState where
  interactions : List Interaction
  chat_messages : List ChatMessage
  artifacts : List (String × String)
  engine_calls : List (String × String)
deriving DecidableEq

/-- Server state at first start: empty tables, empty uploads folder. -/
def emptyState : ServerState := ⟨[], [], [], []⟩

/-- Model of werkzeug file.save(filepath): writes contents at the path,
silently replacing any file previously stored at the same path. -/
def fileSave (artifacts : List (String × String)) (path contents : String) :
    List (String × String) :=
  (path, contents) :: List.filter (fun p => p.1 != path) artifacts

/-- Outcome of one subprocess.run invocation of the external engine. -/
inductive EngineResult where
  | ok (stdout : String)
  | exit (stderr : String)
  | timeout
  | missing
deriving DecidableEq

/-- True on the three failing outcomes: non-zero exit status, the
120-second timeout, and the ollama binary not being found. -/
def EngineResult.isFailure : EngineResult → Bool
  | .ok _ => false
  | _ => true

/-- Multipart form of a POST /upload request: an optional file part
carrying (original filename, bytes), and the optional intent and model
form fields. -/
structure UploadRequest where
  file : Option (String × String)
  intent : Option String
  model : Option String
deriving DecidableEq

/-- HTTP response of POST /upload: badRequest is status 400, serverError
is status 500, ok is the JSON success body. -/
inductive UploadResponse where
  | badRequest (error : String)
  | serverError (error : String)
  | ok (filename output : String) (input_tokens output_tokens : Nat) (cost : ℚ)
deriving DecidableEq

/-- True exactly on 400 responses of the upload route. -/
def UploadResponse.isBadRequest : UploadResponse → Bool
  | .badRequest _ => true
  | _ => false

/-- Embedding of upload_file (server.py lines 727-798).  The timestamp
argument is the second-resolution wall-clock string taken at the request,
and engine is the outcome of the one subprocess.run call of this request. -/
def upload_file (s : ServerState) (req : UploadRequest) (timestamp : String)
    (engine : EngineResult) : UploadResponse × ServerState :=
  match req.file with
  | none => (.badRequest "No file provided", s)
  | some (origName, contents) =>
    let intent := req.intent.getD "OCR this image."
    let model := req.model.getD "deepseek-ocr"
    if origName = "" then (.badRequest "No file selected", s)
    else
      let filename := makeFilename timestamp origName
      let filepath := makeFilepath filename
      let s1 : ServerState := { s with artifacts := fileSave s.artifacts filepath contents }
      let prompt := buildUploadPrompt filepath intent
      let s2 : ServerState := { s1 with engine_calls := s1.engine_calls ++ [(model, prompt)] }
      match engine with
      | .exit stderr => (.serverError ("Ollama error: " ++ stderr), s2)
      | .timeout => (.serverError "OCR processing timed out", s2)
      | .missing =>
          (.serverError "Ollama not found. Please ensure Ollama is installed and in PATH", s2)
      | .ok stdout =>
          let output := pyStrip stdout
          let input_tokens := estimate_tokens intent
          let output_tokens := estimate_tokens output
          let estimated_cost := calculate_cost input_tokens output_tokens model
          let row : Interaction :=
            { id := s2.interactions.length + 1, filename := filename, intent := intent,
              output := output, model := model, input_tokens := input_tokens,
              output_tokens := output_tokens, estimated_cost := estimated_cost }
          (.ok filename output input_tokens output_tokens estimated_cost,
           { s2 with interactions := s2.interactions ++ [row] })

/-- HTTP response of POST /chat/(id): badRequest is 400, notFound is 404,
serverError is 500, ok is the JSON success body. -/
inductive ChatResponse where
  | badRequest (error : String)
  | notFound (error : String)
  | serverError (error : String)
  | ok (response : String)
deriving DecidableEq

/-- True exactly on 404 responses of the chat route. -/
def ChatResponse.isNotFound : ChatResponse → Bool
  | .notFound _ => true
  | _ => false

/-- Embedding of send_chat_message (server.py lines 885-961).  rawMessage
is data.get of the message key with default empty string; engine is the
outcome of the one subprocess.run call of this request. -/
def send_chat_message (s : ServerState) (interaction_id : Nat) (rawMessage : String)
    (engine : EngineResult) : ChatResponse × ServerState :=
  let message := pyStrip rawMessage
  if message = "" then (.badRequest "No message provided", s)
  else
    match s.interactions.find? (fun r => r.id == interaction_id) with
    | none => (.notFound "Interaction not found", s)
    | some row =>
      let filepath := makeFilepath row.filename
      let prompt := filepath ++ "\n" ++ message
      let s1 : ServerState := { s with engine_calls := s.engine_calls ++ [(row.model, prompt)] }
      match engine with
      | .exit stderr => (.serverError ("Ollama error: " ++ stderr), s1)
      | .timeout => (.serverError "Chat processing timed out", s1)
      | .missing => (.serverError "Ollama not found", s1)
      | .ok stdout =>
          let assistant_response := pyStrip stdout
          let user_tokens := estimate_tokens message
          let assistant_tokens := estimate_tokens assistant_response
          let user_cost := calculate_cost user_tokens 0 row.model
          let assistant_cost := calculate_cost 0 assistant_tokens row.model
          let userMsg : ChatMessage :=
            { id := s1.chat_messages.length + 1, interaction_id := interaction_id,
              role := "user", content := message, tokens := user_tokens, cost := user_cost }
          let asstMsg : ChatMessage :=
            { id := s1.chat_messages.length + 2, interaction_id := interaction_id,
              role := "assistant", content := assistant_response,
              tokens := assistant_tokens, cost := assistant_cost }
          (.ok assistant_response,
           { s1 with chat_messages := s1.chat_messages ++ [userMsg, asstMsg] })

/-- Embedding of get_chat_history (server.py lines 861-883): the rows of
chat_messages with the given interaction id, ordered by timestamp
ascending, which is their insertion order. -/
def get_chat_history (s : ServerState) (interaction_id : Nat) : List ChatMessage :=
  s.chat_messages.filter (fun m => m.interaction_id == interaction_id)

/-- SQL aggregate SUM over a column: NULL (none) on an empty table. -/
def sqlSumNat (l : List Nat) : Option Nat :=
  if l.isEmpty then none else some l.sum

/-- SQL aggregate SUM over a REAL column: NULL (none) on an empty table. -/
def sqlSumRat (l : List ℚ) : Option ℚ :=
  if l.isEmpty then none else some l.sum

/-- Body of the GET /stats JSON response. -/
structure Stats where
  total_interactions : Nat
  total_tokens : Nat
  total_cost : ℚ
deriving DecidableEq

/-- Embedding of get_stats (server.py lines 828-859): COUNT and SUMs over
the interactions table, SUMs over the chat_messages table, with Python
"x or 0" turning a NULL sum into zero. -/
def get_stats (s : ServerState) : Stats :=
  let itok := sqlSumNat (s.interactions.map (fun r => r.input_tokens + r.output_tokens))
  let icost := sqlSumRat (s.interactions.map (fun r => r.estimated_cost))
  let ctok := sqlSumNat (s.chat_messages.map (fun m => m.tokens))
  let ccost := sqlSumRat (s.chat_messages.map (fun m => m.cost))
  { total_interactions := s.interactions.length,
    total_tokens := itok.getD 0 + ctok.getD 0,
    total_cost := icost.getD 0 + ccost.getD 0 }

/-- One submitted chat turn: the target interaction id, the message text,
and how the engine invocation for this turn turns out. -/
structure ChatTurn where
  interaction_id : Nat
  message : String
  engine : EngineResult
deriving DecidableEq

/-- Run a sequence of chat-turn submissions, threading the server state. -/
def runTurns (s : ServerState) (turns : List ChatTurn) : ServerState :=
  match turns with
  | [] => s
  | t :: ts => runTurns (send_chat_message s t.interaction_id t.message t.engine).2 ts

/-! Shared helper lemmas. -/

/-- Python "x or 0" applied to a SQL SUM over a Nat column equals the
plain fold over the rows. -/
theorem sqlSumNat_getD (l : List Nat) : (sqlSumNat l).getD 0 = l.sum := by
  cases l with
  | nil => rfl
  | cons a t => rfl

/-- Python "x or 0.0" applied to a SQL SUM over a REAL column equals the
plain fold over the rows. -/
theorem sqlSumRat_getD (l : List ℚ) : (sqlSumRat l).getD 0 = l.sum := by
  cases l with
  | nil => rfl
  | cons a t => rfl

/-- C9: estimate_tokens is a pure function (it is a Lean function of the
text alone, so determinism is definitional); it returns a non-negative
integer, and it is monotone in text length: a text no longer than another
never gets more estimated tokens. -/
theorem c9_estimate_tokens_monotone (s t : String) (h : s.length ≤ t.length) :
    0 ≤ estimate_tokens s ∧ estimate_tokens s ≤ estimate_tokens t :=
  ⟨Nat.zero_le _, Nat.div_le_div_right h⟩

/-- Witness for C9 at the concrete pair "ab" and "abcdefgh". -/
theorem c9_witness :
    ("ab" : String).length ≤ ("abcdefgh" : String).length ∧
    (0 ≤ estimate_tokens "ab" ∧ estimate_tokens "ab" ≤ estimate_tokens "abcdefgh") :=
  ⟨by decide, c9_estimate_tokens_monotone "ab" "abcdefgh" (by decide)⟩

/-- C2: the prompt sent to the engine is the stored image path, a newline,
then the instruction; the grounding marker is inserted immediately before
the instruction exactly when the intent neither already starts with the
marker nor starts case-insensitively with "describe this image".  In
particular the three instances named by the spec: intent "OCR this image."
gets the marker, intent "Describe this image in detail." does not, and an
intent already starting with the marker is not given a second one. -/
theorem c2_prompt_construction (filepath intent : String) :
    (buildUploadPrompt filepath intent =
      filepath ++ "\n" ++
        (if pyStartswith (pyLower intent) "describe this image" ||
            pyStartswith intent "<|grounding|>" then intent
         else "<|grounding|>" ++ intent)) ∧
    buildUploadPrompt filepath "OCR this image." =
      filepath ++ "\n" ++ "<|grounding|>OCR this image." ∧
    buildUploadPrompt filepath "Describe this image in detail." =
      filepath ++ "\n" ++ "Describe this image in detail." ∧
    buildUploadPrompt filepath "<|grounding|>Free OCR." =
      filepath ++ "\n" ++ "<|grounding|>Free OCR." := by
  refine ⟨?_, ?_, ?_, ?_⟩
  · unfold buildUploadPrompt
    by_cases h1 : pyStartswith (pyLower intent) "describe this image" = true
    · rw [if_pos h1, if_pos (by simp [h1])]
    · by_cases h2 : pyStartswith intent "<|grounding|>" = true
      · rw [if_neg h1, if_neg (by simp [h2]), if_pos (by simp [h2])]
      · rw [if_neg h1, if_pos h2, if_neg (by simp [Bool.not_eq_true] at h1 h2 ⊢; exact ⟨h1, h2⟩)]
        exact String.append_assoc (filepath ++ "\n") "<|grounding|>" intent
  · unfold buildUploadPrompt
    rw [if_neg (by decide), if_pos (by decide),
      String.append_assoc (filepath ++ "\n") "<|grounding|>" "OCR this image."]
    congr 1
  · unfold buildUploadPrompt
    rw [if_pos (by decide)]
  · unfold buildUploadPrompt
    rw [if_neg (by decide), if_neg (by decide)]

/-- C3 (code bug): the reference generated by the artifact-saving step is
only the second-resolution timestamp joined to the client filename, so two
uploads of a file of the same name handled in the same wall-clock second
generate the identical reference, and the second file.save silently
replaces the first artifact: after the two uploads the store holds only
the second file's bytes under the shared name. -/
theorem c3_same_second_overwrite :
    makeFilename "20260101_120000" "a.png" = makeFilename "20260101_120000" "a.png" ∧
    (upload_file (upload_file emptyState ⟨some ("a.png", "FIRST"), none, none⟩
        "20260101_120000" (.ok "o1")).2
      ⟨some ("a.png", "SECOND"), none, none⟩ "20260101_120000" (.ok "o2")).2.artifacts =
      [("uploads/20260101_120000_a.png", "SECOND")] := by
  exact ⟨rfl, by decide⟩

/-- C7: the usage statistics of the empty store are count 0, total_tokens 0
and total_cost 0, and in general get_stats is the fold summing the token
and cost fields over all rows of both tables. -/
theorem c7_stats_fold (s : ServerState) :
    get_stats emptyState = ⟨0, 0, 0⟩ ∧
    get_stats s = ⟨s.interactions.length,
      (s.interactions.map (fun r => r.input_tokens + r.output_tokens)).sum +
        (s.chat_messages.map (fun m => m.tokens)).sum,
      (s.interactions.map (fun r => r.estimated_cost)).sum +
        (s.chat_messages.map (fun m => m.cost)).sum⟩ := by
  constructor
  · simp [get_stats, emptyState, sqlSumNat, sqlSumRat]
  · simp [get_stats, sqlSumNat_getD, sqlSumRat_getD]

/-- C8 counterexample: an upload whose form has a file part but no intent
field is not rejected with a validation error; it proceeds to storage and
to the engine invocation (one artifact saved, one engine call made). -/
theorem c8_counterexample :
    (upload_file emptyState ⟨some ("a.png", "BYTES"), none, none⟩ "20260101_120000"
        (.ok "out")).1.isBadRequest = false ∧
    (upload_file emptyState ⟨some ("a.png", "BYTES"), none, none⟩ "20260101_120000"
        (.ok "out")).2.artifacts.length = 1 ∧
    (upload_file emptyState ⟨some ("a.png", "BYTES"), none, none⟩ "20260101_120000"
        (.ok "out")).2.engine_calls.length = 1 := by
  refine ⟨by decide, by decide, by decide⟩

/-- C8 (amended): an upload request with no file part, or with an empty
filename, fails with a 400 validation error and leaves the whole server
state untouched: nothing is stored and the engine is not invoked.  A
missing intent is not rejected (see the counterexample): it is defaulted. -/
theorem c8_amended_validation (s : ServerState) (req : UploadRequest) (ts : String)
    (e : EngineResult)
    (h : req.file = none ∨ ∃ contents, req.file = some ("", contents)) :
    (upload_file s req ts e).1.isBadRequest = true ∧ (upload_file s req ts e).2 = s := by
  rcases h with h | ⟨c, h⟩ <;>
    simp [upload_file, h, UploadResponse.isBadRequest]

/-- Witness for C8 at a concrete request with no file part. -/
theorem c8_witness :
    ((⟨none, some "OCR this image.", none⟩ : UploadRequest).file = none ∨
      ∃ contents, (⟨none, some "OCR this image.", none⟩ : UploadRequest).file =
        some ("", contents)) ∧
    ((upload_file emptyState ⟨none, some "OCR this image.", none⟩ "20260101_120000"
        EngineResult.timeout).1.isBadRequest = true ∧
      (upload_file emptyState ⟨none, some "OCR this image.", none⟩ "20260101_120000"
        EngineResult.timeout).2 = emptyState) :=
  ⟨Or.inl rfl,
   c8_amended_validation emptyState ⟨none, some "OCR this image.", none⟩ "20260101_120000"
     EngineResult.timeout (Or.inl rfl)⟩

/-- C6 counterexample: a chat message whose text is empty, posted against
an interaction id that does not exist (the store is empty), is rejected
with the 400 validation error, not with the 404 NotFound the claim
states; no row is appended. -/
theorem c6_counterexample :
    emptyState.interactions = [] ∧
    (send_chat_message emptyState 5 "" (.ok "x")).1 =
      ChatResponse.badRequest "No message provided" ∧
    (send_chat_message emptyState 5 "" (.ok "x")).1.isNotFound = false ∧
    (send_chat_message emptyState 5 "" (.ok "x")).2 = emptyState := by
  refine ⟨rfl, by decide, by decide, by decide⟩

/-- C6 (amended): a chat message that survives validation (non-empty after
stripping), posted against an interaction id that matches no stored
Interaction, fails with NotFound and leaves the state untouched, so zero
rows are appended to chat_messages and the engine is not invoked; an
empty message is instead rejected 400 before the existence check. -/
theorem c6_amended_not_found (s : ServerState) (iid : Nat) (msg : String) (e : EngineResult)
    (hmsg : pyStrip msg ≠ "")
    (habsent : s.interactions.find? (fun r => r.id == iid) = none) :
    (send_chat_message s iid msg e).1 = ChatResponse.notFound "Interaction not found" ∧
    (send_chat_message s iid msg e).2 = s := by
  simp [send_chat_message, hmsg, habsent]

/-- Witness for C6 at the empty store and the message "hi". -/
theorem c6_witness :
    pyStrip "hi" ≠ "" ∧
    emptyState.interactions.find? (fun r => r.id == 7) = none ∧
    ((send_chat_message emptyState 7 "hi" (.ok "x")).1 =
        ChatResponse.notFound "Interaction not found" ∧
      (send_chat_message emptyState 7 "hi" (.ok "x")).2 = emptyState) :=
  ⟨by decide, by decide,
   c6_amended_not_found emptyState 7 "hi" (.ok "x") (by decide) (by decide)⟩

/-- C1: a successful upload creates exactly one Interaction row, appended
to the table, whose intent and model are the submitted ones, whose
input_tokens is estimate_tokens of the submitted intent, whose
output_tokens is estimate_tokens of the recorded engine output (the
stripped stdout), and whose estimated_cost is calculate_cost of those two
token counts and the submitted model. -/
theorem c1_upload_success (s : ServerState) (req : UploadRequest)
    (ts stdout origName contents : String)
    (hfile : req.file = some (origName, contents)) (hname : origName ≠ "") :
    ∃ r : Interaction,
      (upload_file s req ts (.ok stdout)).2.interactions = s.interactions ++ [r] ∧
      r.intent = req.intent.getD "OCR this image." ∧
      r.model = req.model.getD "deepseek-ocr" ∧
      r.output = pyStrip stdout ∧
      r.input_tokens = estimate_tokens r.intent ∧
      r.output_tokens = estimate_tokens r.output ∧
      r.estimated_cost = calculate_cost r.input_tokens r.output_tokens r.model := by
  simp only [upload_file, hfile, if_neg hname]
  exact ⟨_, rfl, rfl, rfl, rfl, rfl, rfl, rfl⟩

/-- Witness for C1: one successful upload into the empty store. -/
theorem c1_witness :
    (⟨some ("a.png", "B"), none, none⟩ : UploadRequest).file = some ("a.png", "B") ∧
    ("a.png" : String) ≠ "" ∧
    (∃ r : Interaction,
      (upload_file emptyState ⟨some ("a.png", "B"), none, none⟩ "20260101_120000"
          (.ok " hello ")).2.interactions = emptyState.interactions ++ [r] ∧
      r.intent = (⟨some ("a.png", "B"), none, none⟩ : UploadRequest).intent.getD
        "OCR this image." ∧
      r.model = (⟨some ("a.png", "B"), none, none⟩ : UploadRequest).model.getD
        "deepseek-ocr" ∧
      r.output = pyStrip " hello " ∧
      r.input_tokens = estimate_tokens r.intent ∧
      r.output_tokens = estimate_tokens r.output ∧
      r.estimated_cost = calculate_cost r.input_tokens r.output_tokens r.model) :=
  ⟨rfl, by decide,
   c1_upload_success emptyState ⟨some ("a.png", "B"), none, none⟩ "20260101_120000"
     " hello " "a.png" "B" rfl (by decide)⟩

/-- C10: an upload whose form has a (non-empty-named) file but omits the
intent field, the model field, or both, is not rejected: it behaves
exactly as the request in which intent is "OCR this image." and model is
"deepseek-ocr" wherever the field was omitted, and its response is never
a 400 validation error. -/
theorem c10_missing_fields_default (s : ServerState)
    (origName contents ts : String) (e : EngineResult)
    (iField mField : Option String) (hname : origName ≠ "") :
    upload_file s ⟨some (origName, contents), iField, mField⟩ ts e =
      upload_file s ⟨some (origName, contents), some (iField.getD "OCR this image."),
        some (mField.getD "deepseek-ocr")⟩ ts e ∧
    (upload_file s ⟨some (origName, contents), iField, mField⟩ ts e).1.isBadRequest =
      false := by
  constructor
  · rfl
  · simp only [upload_file, if_neg hname]
    cases e <;> rfl

/-- Witness for C10: both fields omitted, engine succeeding. -/
theorem c10_witness :
    ("a.png" : String) ≠ "" ∧
    (upload_file emptyState ⟨some ("a.png", "B"), none, none⟩ "20260101_120000"
        (.ok "out") =
      upload_file emptyState ⟨some ("a.png", "B"),
        some ((none : Option String).getD "OCR this image."),
        some ((none : Option String).getD "deepseek-ocr")⟩ "20260101_120000" (.ok "out") ∧
      (upload_file emptyState ⟨some ("a.png", "B"), none, none⟩ "20260101_120000"
        (.ok "out")).1.isBadRequest = false) :=
  ⟨by decide,
   c10_missing_fields_default emptyState "a.png" "B" "20260101_120000" (.ok "out")
     none none (by decide)⟩

/-- C5: whenever the engine invocation of a request fails (non-zero exit,
timeout, or the ollama binary missing), the request answers with a 500
error and inserts no Interaction row and no ChatMessage row: both tables
are exactly what they were.  The first conjunct is the upload flow; the
second is the chat flow, for any request that reached the invocation. -/
theorem c5_engine_failure_no_rows (s : ServerState) (req : UploadRequest)
    (ts origName contents msg : String) (iid : Nat) (e : EngineResult)
    (hfile : req.file = some (origName, contents)) (hname : origName ≠ "")
    (hfail : e.isFailure = true) :
    ((∃ m, (upload_file s req ts e).1 = UploadResponse.serverError m) ∧
      (upload_file s req ts e).2.interactions = s.interactions ∧
      (upload_file s req ts e).2.chat_messages = s.chat_messages) ∧
    (pyStrip msg ≠ "" →
      (s.interactions.find? (fun r => r.id == iid)).isSome = true →
      ((∃ m, (send_chat_message s iid msg e).1 = ChatResponse.serverError m) ∧
        (send_chat_message s iid msg e).2.interactions = s.interactions ∧
        (send_chat_message s iid msg e).2.chat_messages = s.chat_messages)) := by
  cases e with
  | ok o => simp [EngineResult.isFailure] at hfail
  | exit st =>
    refine ⟨⟨⟨"Ollama error: " ++ st, ?_⟩, ?_, ?_⟩, fun hmsg hfind => ?_⟩
    · simp only [upload_file, hfile, if_neg hname]
    · simp only [upload_file, hfile, if_neg hname]
    · simp only [upload_file, hfile, if_neg hname]
    · obtain ⟨row, hrow⟩ := Option.isSome_iff_exists.mp hfind
      refine ⟨⟨"Ollama error: " ++ st, ?_⟩, ?_, ?_⟩ <;>
        simp only [send_chat_message, if_neg hmsg, hrow]
  | timeout =>
    refine ⟨⟨⟨"OCR processing timed out", ?_⟩, ?_, ?_⟩, fun hmsg hfind => ?_⟩
    · simp only [upload_file, hfile, if_neg hname]
    · simp only [upload_file, hfile, if_neg hname]
    · simp only [upload_file, hfile, if_neg hname]
    · obtain ⟨row, hrow⟩ := Option.isSome_iff_exists.mp hfind
      refine ⟨⟨"Chat processing timed out", ?_⟩, ?_, ?_⟩ <;>
        simp only [send_chat_message, if_neg hmsg, hrow]
  | missing =>
    refine ⟨⟨⟨"Ollama not found. Please ensure Ollama is installed and in PATH", ?_⟩,
      ?_, ?_⟩, fun hmsg hfind => ?_⟩
    · simp only [upload_file, hfile, if_neg hname]
    · simp only [upload_file, hfile, if_neg hname]
    · simp only [upload_file, hfile, if_neg hname]
    · obtain ⟨row, hrow⟩ := Option.isSome_iff_exists.mp hfind
      refine ⟨⟨"Ollama not found", ?_⟩, ?_, ?_⟩ <;>
        simp only [send_chat_message, if_neg hmsg, hrow]

/-- Sending a chat message never changes the interactions table, whatever
the outcome. -/
theorem send_chat_message_interactions (s : ServerState) (iid : Nat) (msg : String)
    (e : EngineResult) :
    (send_chat_message s iid msg e).2.interactions = s.interactions := by
  by_cases hmsg : pyStrip msg = ""
  · simp [send_chat_message, hmsg]
  · cases hfind : s.interactions.find? (fun r => r.id == iid) with
    | none => simp [send_chat_message, if_neg hmsg, hfind]
    | some row =>
      cases e <;> simp [send_chat_message, if_neg hmsg, hfind]

/-- One successful chat turn appends to the transcript of its interaction
exactly one user row followed by one assistant row. -/
theorem get_chat_history_ok_step (s : ServerState) (iid : Nat) (msg stdout : String)
    (hmsg : pyStrip msg ≠ "")
    (row : Interaction) (hfind : s.interactions.find? (fun r => r.id == iid) = some row) :
    ∃ u a : ChatMessage,
      get_chat_history (send_chat_message s iid msg (.ok stdout)).2 iid =
        get_chat_history s iid ++ [u, a] ∧ u.role = "user" ∧ a.role = "assistant" := by
  simp only [send_chat_message, if_neg hmsg, hfind, get_chat_history]
  refine ⟨⟨s.chat_messages.length + 1, iid, "user", pyStrip msg,
      estimate_tokens (pyStrip msg),
      calculate_cost (estimate_tokens (pyStrip msg)) 0 row.model⟩,
    ⟨s.chat_messages.length + 2, iid, "assistant", pyStrip stdout,
      estimate_tokens (pyStrip stdout),
      calculate_cost 0 (estimate_tokens (pyStrip stdout)) row.model⟩,
    ?_, rfl, rfl⟩
  rw [List.filter_append]
  simp

/-- Role transcript after running a list of successful turns against one
interaction: each turn contributes the pair user, assistant, in order. -/
theorem runTurns_history_roles (iid : Nat) (turns : List ChatTurn) :
    ∀ s : ServerState,
      (s.interactions.find? (fun r => r.id == iid)).isSome = true →
      (∀ t ∈ turns, t.interaction_id = iid ∧ pyStrip t.message ≠ "" ∧
        t.engine.isFailure = false) →
      (get_chat_history (runTurns s turns) iid).map (fun m => m.role) =
        (get_chat_history s iid).map (fun m => m.role) ++
          (List.replicate turns.length (["user", "assistant"] : List String)).flatten := by
  induction turns with
  | nil => intro s _ _; simp [runTurns]
  | cons t ts ih =>
    intro s hfind hturns
    obtain ⟨htid, hmsg, hok⟩ := hturns t (List.mem_cons_self t ts)
    cases he : t.engine with
    | exit st => rw [he] at hok; simp [EngineResult.isFailure] at hok
    | timeout => rw [he] at hok; simp [EngineResult.isFailure] at hok
    | missing => rw [he] at hok; simp [EngineResult.isFailure] at hok
    | ok o =>
      obtain ⟨row, hrow⟩ := Option.isSome_iff_exists.mp hfind
      obtain ⟨u, a, hstep, hu, ha⟩ := get_chat_history_ok_step s iid t.message o hmsg row hrow
      have hnext : runTurns s (t :: ts) =
          runTurns (send_chat_message s iid t.message (.ok o)).2 ts := by
        simp only [runTurns, htid, he]
      have hfind2 : ((send_chat_message s iid t.message
          (.ok o)).2.interactions.find? (fun r => r.id == iid)).isSome = true := by
        rw [send_chat_message_interactions]; exact hfind
      have hturns2 : ∀ t' ∈ ts, t'.interaction_id = iid ∧ pyStrip t'.message ≠ "" ∧
          t'.engine.isFailure = false := fun t' ht' => hturns t' (List.mem_cons_of_mem t ht')
      rw [hnext, ih _ hfind2 hturns2, hstep]
      simp [hu, ha, List.replicate_succ]

/-- Length of the expected transcript of n turns. -/
theorem flatten_replicate_pair_length (n : Nat) :
    ((List.replicate n (["user", "assistant"] : List String)).flatten).length = 2 * n := by
  induction n with
  | zero => rfl
  | succ k ih =>
    rw [List.replicate_succ, List.flatten_cons, List.length_append, ih]
    simp only [List.length_cons, List.length_nil]
    omega

/-- C4: after any sequence of N successful chat-turn submissions against
an existing interaction whose transcript started empty, the chat-history
read returns exactly 2N messages, in chronological order, whose roles are
N repetitions of the pair user then assistant, so the roles alternate
user, assistant starting with user. -/
theorem c4_chat_alternation (s : ServerState) (iid : Nat) (turns : List ChatTurn)
    (hfind : (s.interactions.find? (fun r => r.id == iid)).isSome = true)
    (hhist : get_chat_history s iid = [])
    (hturns : ∀ t ∈ turns, t.interaction_id = iid ∧ pyStrip t.message ≠ "" ∧
      t.engine.isFailure = false) :
    (get_chat_history (runTurns s turns) iid).length = 2 * turns.length ∧
    (get_chat_history (runTurns s turns) iid).map (fun m => m.role) =
      (List.replicate turns.length (["user", "assistant"] : List String)).flatten := by
  have h := runTurns_history_roles iid turns s hfind hturns
  rw [hhist] at h
  simp only [List.map_nil, List.nil_append] at h
  refine ⟨?_, h⟩
  have hlen := congrArg List.length h
  rw [List.length_map, flatten_replicate_pair_length] at hlen
  exact hlen

/-- Witness for C4: two successful turns against interaction 1 of a store
holding exactly that interaction and no chat rows. -/
theorem c4_witness :
    ((⟨[⟨1, "f.png", "OCR this image.", "out", "deepseek-ocr", 3, 0, 0⟩], [], [], []⟩ :
        ServerState).interactions.find? (fun r => r.id == 1)).isSome = true ∧
    get_chat_history
      (⟨[⟨1, "f.png", "OCR this image.", "out", "deepseek-ocr", 3, 0, 0⟩], [], [], []⟩ :
        ServerState) 1 = [] ∧
    (∀ t ∈ ([⟨1, "hi there", .ok "yo"⟩, ⟨1, "more", .ok "sure"⟩] : List ChatTurn),
      t.interaction_id = 1 ∧ pyStrip t.message ≠ "" ∧ t.engine.isFailure = false) ∧
    ((get_chat_history (runTurns
        (⟨[⟨1, "f.png", "OCR this image.", "out", "deepseek-ocr", 3, 0, 0⟩], [], [], []⟩ :
          ServerState)
        ([⟨1, "hi there", .ok "yo"⟩, ⟨1, "more", .ok "sure"⟩] : List ChatTurn)) 1).length =
      2 * ([⟨1, "hi there", .ok "yo"⟩, ⟨1, "more", .ok "sure"⟩] : List ChatTurn).length ∧
     (get_chat_history (runTurns
        (⟨[⟨1, "f.png", "OCR this image.", "out", "deepseek-ocr", 3, 0, 0⟩], [], [], []⟩ :
          ServerState)
        ([⟨1, "hi there", .ok "yo"⟩, ⟨1, "more", .ok "sure"⟩] : List ChatTurn)) 1).map
        (fun m => m.role) =
      (List.replicate ([⟨1, "hi there", .ok "yo"⟩, ⟨1, "more", .ok "sure"⟩] :
        List ChatTurn).length (["user", "assistant"] : List String)).flatten) :=
  ⟨by decide, by decide, by decide,
   c4_chat_alternation
     ⟨[⟨1, "f.png", "OCR this image.", "out", "deepseek-ocr", 3, 0, 0⟩], [], [], []⟩ 1
     [⟨1, "hi there", .ok "yo"⟩, ⟨1, "more", .ok "sure"⟩]
     (by decide) (by decide) (by decide)⟩

/-- Witness for C5: timeout of the engine on both flows, against a store
holding one interaction. -/
theorem c5_witness :
    (⟨some ("b.png", "B"), none, none⟩ : UploadRequest).file = some ("b.png", "B") ∧
    ("b.png" : String) ≠ "" ∧
    EngineResult.timeout.isFailure = true ∧
    (((∃ m, (upload_file
        (⟨[⟨1, "f.png", "OCR this image.", "out", "deepseek-ocr", 3, 0, 0⟩], [], [], []⟩ :
          ServerState)
        ⟨some ("b.png", "B"), none, none⟩ "20260101_120000" EngineResult.timeout).1 =
          UploadResponse.serverError m) ∧
      (upload_file
        (⟨[⟨1, "f.png", "OCR this image.", "out", "deepseek-ocr", 3, 0, 0⟩], [], [], []⟩ :
          ServerState)
        ⟨some ("b.png", "B"), none, none⟩ "20260101_120000"
          EngineResult.timeout).2.interactions =
        (⟨[⟨1, "f.png", "OCR this image.", "out", "deepseek-ocr", 3, 0, 0⟩], [], [], []⟩ :
          ServerState).interactions ∧
      (upload_file
        (⟨[⟨1, "f.png", "OCR this image.", "out", "deepseek-ocr", 3, 0, 0⟩], [], [], []⟩ :
          ServerState)
        ⟨some ("b.png", "B"), none, none⟩ "20260101_120000"
          EngineResult.timeout).2.chat_messages =
        (⟨[⟨1, "f.png", "OCR this image.", "out", "deepseek-ocr", 3, 0, 0⟩], [], [], []⟩ :
          ServerState).chat_messages) ∧
    (pyStrip "hi" ≠ "" →
      ((⟨[⟨1, "f.png", "OCR this image.", "out", "deepseek-ocr", 3, 0, 0⟩], [], [], []⟩ :
          ServerState).interactions.find? (fun r => r.id == 1)).isSome = true →
      ((∃ m, (send_chat_message
          (⟨[⟨1, "f.png", "OCR this image.", "out", "deepseek-ocr", 3, 0, 0⟩], [], [], []⟩ :
            ServerState) 1 "hi" EngineResult.timeout).1 = ChatResponse.serverError m) ∧
        (send_chat_message
          (⟨[⟨1, "f.png", "OCR this image.", "out", "deepseek-ocr", 3, 0, 0⟩], [], [], []⟩ :
            ServerState) 1 "hi" EngineResult.timeout).2.interactions =
          (⟨[⟨1, "f.png", "OCR this image.", "out", "deepseek-ocr", 3, 0, 0⟩], [], [], []⟩ :
            ServerState).interactions ∧
        (send_chat_message
          (⟨[⟨1, "f.png", "OCR this image.", "out", "deepseek-ocr", 3, 0, 0⟩], [], [], []⟩ :
            ServerState) 1 "hi" EngineResult.timeout).2.chat_messages =
          (⟨[⟨1, "f.png", "OCR this image.", "out", "deepseek-ocr", 3, 0, 0⟩], [], [], []⟩ :
            ServerState).chat_messages))) :=
  ⟨rfl, by decide, by decide,
   c5_engine_failure_no_rows
     (⟨[⟨1, "f.png", "OCR this image.", "out", "deepseek-ocr", 3, 0, 0⟩], [], [], []⟩ :
       ServerState)
     ⟨some ("b.png", "B"), none, none⟩ "20260101_120000" "b.png" "B" "hi" 1
     EngineResult.timeout rfl (by decide) (by decide)⟩
